import Mathlib

/-!
Verification development for the financial-market analytics dashboard
(`src/newtrading.py`).  The script is a linear fetch → clean → indicators →
signals pipeline over pandas / ta / streamlit primitives.  We shallowly embed
those primitives over exact rationals (`ℚ` stands for the float values; `none`
stands for a missing value / NaN) and state the specification claims about the
embedded definitions.

Conventions:
* a pandas `Series` of floats with possible NaN entries is `List (Option ℚ)`;
  a series known to be NaN-free is `List ℚ`;
* pandas/NumPy float arithmetic is modelled exactly in `ℚ`;
* the outcome of each streamlit display branch is an explicit inductive value,
  so "no message displayed" is observable and distinct from each message.
-/

/- ------------------------------------------------------------------ -/
/- Rolling statistics engine (pandas primitives used by `get_indicators`) -/
/- ------------------------------------------------------------------ -/

/-- Model of `Series.rolling(w).mean()` on a NaN-free series `cs` (the close
column after `dropna`).  pandas' default `min_periods` for an integer window
equals the window size, so position `i` is defined iff `w ≤ i + 1`, and then
holds the arithmetic mean of the `w` entries ending at `i`. -/
def rollingMean (w : ℕ) (cs : List ℚ) : List (Option ℚ) :=
  (List.range cs.length).map fun i =>
    if w ≤ i + 1 then some ((((cs.drop (i + 1 - w)).take w).sum) / (w : ℚ)) else none

/-- Model of `Series.pct_change()` on a NaN-free series: position `0` is NaN,
position `i > 0` holds `(cs[i] - cs[i-1]) / cs[i-1]`. -/
def pctChange (cs : List ℚ) : List (Option ℚ) :=
  (List.range cs.length).map fun i =>
    match i with
    | 0 => none
    | j + 1 => some ((cs.getD (j + 1) 0 - cs.getD j 0) / cs.getD j 0)

/-- Helper for `gains`: per-bar upward moves `max (cur - prev) 0`. -/
def gainsAux (prev : ℚ) : List ℚ → List ℚ
  | [] => []
  | x :: xs => max (x - prev) 0 :: gainsAux x xs

/-- Helper for `losses`: per-bar downward moves `max (prev - cur) 0`. -/
def lossesAux (prev : ℚ) : List ℚ → List ℚ
  | [] => []
  | x :: xs => max (prev - x) 0 :: lossesAux x xs

/-- Model of ta's `up_direction = diff.where(diff > 0, 0.0)`: the NaN produced
by `diff` at position 0 fails the `diff > 0` test and is replaced by `0.0`,
so the gain series starts with `0` and has the same length as the input. -/
def gains : List ℚ → List ℚ
  | [] => []
  | c :: rest => 0 :: gainsAux c rest

/-- Model of ta's `down_direction = -diff.where(diff < 0, -0.0)` (`0` at
position 0, `max (prev - cur) 0` afterwards). -/
def losses : List ℚ → List ℚ
  | [] => []
  | c :: rest => 0 :: lossesAux c rest

/-- Helper for `ewma`: recursive tail `y_i = (1 - a) * y_{i-1} + a * x_i`. -/
def ewmaAux (a y : ℚ) : List ℚ → List ℚ
  | [] => []
  | x :: xs => ((1 - a) * y + a * x) :: ewmaAux a ((1 - a) * y + a * x) xs

/-- Model of `Series.ewm(alpha=a, adjust=False).mean()` on a NaN-free series:
`y_0 = x_0` and `y_i = (1 - a) * y_{i-1} + a * x_i`. -/
def ewma (a : ℚ) : List ℚ → List ℚ
  | [] => []
  | x :: xs => x :: ewmaAux a x xs

/-- Smoothed average gain used by `ta.momentum.RSIIndicator` (ewm with
`alpha = 1 / window`, `adjust=False`). -/
def avgGain (w : ℕ) (cs : List ℚ) : List ℚ := ewma (1 / (w : ℚ)) (gains cs)

/-- Smoothed average loss used by `ta.momentum.RSIIndicator`. -/
def avgLoss (w : ℕ) (cs : List ℚ) : List ℚ := ewma (1 / (w : ℚ)) (losses cs)

/-- Pointwise RSI value at a defined position, following ta's
`np.where(emadn == 0, 100, 100 - (100 / (1 + emaup / emadn)))`. -/
def rsiAt (w : ℕ) (cs : List ℚ) (i : ℕ) : ℚ :=
  if (avgLoss w cs).getD i 0 = 0 then 100
  else 100 - 100 / (1 + (avgGain w cs).getD i 0 / (avgLoss w cs).getD i 0)

/-- Model of `RSIIndicator(close, window=w).rsi()` on a NaN-free close series.
ta runs the two ewm smoothings with `min_periods = window`; the smoothed
inputs are NaN-free (the position-0 NaN of `diff` was zeroed), so position `i`
of the result is defined iff `w ≤ i + 1`. -/
def computeRSI (w : ℕ) (cs : List ℚ) : List (Option ℚ) :=
  (List.range cs.length).map fun i => if w ≤ i + 1 then some (rsiAt w cs i) else none

/-- Arithmetic mean of a list of rationals (pandas `Series.mean` on the
NaN-free defined entries). -/
def meanQ (xs : List ℚ) : ℚ := xs.sum / (xs.length : ℚ)

/-- Model of pandas `Series.std()**2` restricted to the defined entries:
sample variance with `ddof = 1`; NaN (here `none`) when fewer than 2 entries
exist (pandas yields `0/0 = NaN` for one entry and NaN for none). -/
def sampleVar (xs : List ℚ) : Option ℚ :=
  if xs.length < 2 then none
  else some ((xs.map (fun x => (x - meanQ xs) ^ 2)).sum / ((xs.length : ℚ) - 1))

/-- Model of the square of `full_data["Daily Return"].std() * (252 ** 0.5)`.
`Series.std()` skips NaN entries (`filterMap id`); the `√252` factor of the
source becomes a factor `252` on the squared value, keeping the computation in
exact rationals.  `none` models the NaN that pandas produces when fewer than
two defined returns exist. -/
def annualizedVolSq (rets : List (Option ℚ)) : Option ℚ :=
  (sampleVar (rets.filterMap id)).map (fun s => s * 252)

/- ------------------------------------------------------------------ -/
/- Signal evaluators (the display branches of the analysis section)     -/
/- ------------------------------------------------------------------ -/

/-- Observable outcome of the SMA buy/sell branch (lines 166–175): `buy` is
the `st.success` message, `sell` the `st.warning` message, `notEnoughInfo`
the `st.info("Not enough data …")` message, and `silent` the case where the
code displays nothing at all. -/
inductive MAOutcome where
  | buy
  | sell
  | notEnoughInfo
  | silent
deriving DecidableEq

/-- Model of the SMA signal branch: `if pd.notna(last50) and pd.notna(last200)`
then `if last50 > last200` → buy message, `elif last50 < last200` → sell
message, and — with no further `else` — nothing when the two are equal;
otherwise the "Not enough data" info message. -/
def evalMASignal (last50 last200 : Option ℚ) : MAOutcome :=
  match last50, last200 with
  | some a, some b =>
      if a > b then MAOutcome.buy
      else if a < b then MAOutcome.sell
      else MAOutcome.silent
  | _, _ => MAOutcome.notEnoughInfo

/-- Observable outcome of the RSI branch (lines 186–193): `overbought` is the
`st.warning` message, `oversold` the `st.success` message, `neutral` the
`st.info` message, and `undetermined` the case where the guard
`if not full_data["RSI"].dropna().empty` fails and nothing is displayed. -/
inductive RSIOutcome where
  | overbought
  | oversold
  | neutral
  | undetermined
deriving DecidableEq

/-- Model of the RSI signal branch.  The guard tests `RSI.dropna()` for
emptiness, but the classified value is `RSI.iloc[-1]` — the last entry,
defined or not.  A NaN last entry fails both `last_rsi > 70` and
`last_rsi < 30` (NaN comparisons are false in Python) and lands in the
`else` (neutral) branch; that arm is unreachable in the pipeline, where NaNs
only occur as a prefix, but is modelled faithfully. -/
def rsiBlock (rsi : List (Option ℚ)) : RSIOutcome :=
  if rsi.filterMap id = [] then RSIOutcome.undetermined
  else
    match rsi.getLast? with
    | some (some v) =>
        if v > 70 then RSIOutcome.overbought
        else if v < 30 then RSIOutcome.oversold
        else RSIOutcome.neutral
    | _ => RSIOutcome.neutral

/-- Most recent defined value of a series (the specification's notion the RSI
signal is said to be derived from). -/
def lastDefined (xs : List (Option ℚ)) : Option ℚ := (xs.filterMap id).getLast?

/-- Modelled from the spec's words (refinement side of the RSI-signal claim):
classify the most recent *defined* RSI value — undetermined when there is
none, overbought strictly above 70, oversold strictly below 30, neutral
otherwise (inclusive of exactly 30 and 70). -/
def rsiSignalSpec (xs : List (Option ℚ)) : RSIOutcome :=
  match lastDefined xs with
  | none => RSIOutcome.undetermined
  | some v =>
      if v > 70 then RSIOutcome.overbought
      else if v < 30 then RSIOutcome.oversold
      else RSIOutcome.neutral

/- ------------------------------------------------------------------ -/
/- Raw table, cleaning, and the analysis section (lines 130–193)        -/
/- ------------------------------------------------------------------ -/

/-- One row of a raw downloaded price table; `none` models a missing value
(NaN) in the corresponding required field.  (`opn` stands for the `Open`
column, a reserved word in Lean.) -/
structure RawRow where
  opn : Option ℚ
  high : Option ℚ
  low : Option ℚ
  close : Option ℚ
  volume : Option ℚ
deriving DecidableEq

/-- One fully-populated price bar after cleaning. -/
structure Bar where
  opn : ℚ
  high : ℚ
  low : ℚ
  close : ℚ
  volume : ℚ
deriving DecidableEq

/-- Model of `data.dropna()` inside `get_data` (line 101): keep exactly the
rows with no missing value in any field. -/
def dropna (rows : List RawRow) : List Bar :=
  rows.filterMap fun r =>
    match r.opn, r.high, r.low, r.close, r.volume with
    | some o, some h, some l, some c, some v => some ⟨o, h, l, c, v⟩
    | _, _, _, _, _ => none

/-- Items the analysis section displays, in source order: the closing-price
figure (line 158), the moving-average line chart (line 163), an SMA signal
message (lines 171–175, when any), the volatility text (line 180), the RSI
line chart (line 184) and an RSI signal message (lines 189–193, when any). -/
inductive RenderItem where
  | closePriceChart
  | maChart
  | maSignalMsg (m : MAOutcome)
  | volatilityText
  | rsiChart
  | rsiSignalMsg (o : RSIOutcome)
deriving DecidableEq

/-- Failure vocabulary for the analysis section.  `emptyInput` is the error
the specification predicts for an empty cleaned table; `indexError` is the
uncaught Python `IndexError` that `full_data["SMA_50"].iloc[-1]` (line 166)
raises on an empty frame. -/
inductive ErrKind where
  | emptyInput
  | indexError
deriving DecidableEq

/-- The values the analysis section derives beyond its charts: the two signal
outcomes and the (squared, see `annualizedVolSq`) annualized volatility. -/
structure AnalysisResult where
  maSignal : MAOutcome
  rsiSignal : RSIOutcome
  volSq : Option ℚ
deriving DecidableEq

/-- Observable run of the analysis section: what was displayed before the
section finished or aborted, the derived values when it finished, and the
uncaught exception when it aborted. -/
structure AnalysisRun where
  rendered : List RenderItem
  result : Option AnalysisResult
  failure : Option ErrKind
deriving DecidableEq

/-- Model of the analysis section (lines 130–193) applied to the raw rows the
downloader returned.  `get_data` cleans with `dropna`; `get_indicators` adds
the SMA, return and RSI columns; the section then renders the price and MA
charts, and `full_data["SMA_50"].iloc[-1]` raises `IndexError` when the
cleaned table is empty — there is no emptiness check — otherwise signals,
volatility and the RSI chart follow.  (`last200` uses `getD none`: the SMA
columns have equal length, so when the SMA-50 lookup succeeded the frame is
nonempty and the default is never taken.) -/
def analysisBlock (raw : List RawRow) : AnalysisRun :=
  let bars := dropna raw
  let closes := bars.map Bar.close
  let sma50 := rollingMean 50 closes
  let sma200 := rollingMean 200 closes
  let rets := pctChange closes
  let rsi := computeRSI 14 closes
  match sma50.getLast? with
  | none =>
      { rendered := [RenderItem.closePriceChart, RenderItem.maChart]
        result := none
        failure := some ErrKind.indexError }
  | some last50 =>
      let last200 := sma200.getLast?.getD none
      let maOut := evalMASignal last50 last200
      let volSq := annualizedVolSq rets
      let rsiOut := rsiBlock rsi
      { rendered := [RenderItem.closePriceChart, RenderItem.maChart]
          ++ (if maOut = MAOutcome.silent then [] else [RenderItem.maSignalMsg maOut])
          ++ [RenderItem.volatilityText, RenderItem.rsiChart]
          ++ (if rsiOut = RSIOutcome.undetermined then [] else [RenderItem.rsiSignalMsg rsiOut])
        result := some { maSignal := maOut, rsiSignal := rsiOut, volSq := volSq }
        failure := none }

/- ------------------------------------------------------------------ -/
/- DataFrame model for the in-place-mutation claim                      -/
/- ------------------------------------------------------------------ -/

/-- Structural model of a pandas DataFrame for the mutation claim: a `multi`
flag for `isinstance(df.columns, pd.MultiIndex)` and labelled value columns.
A label is a pair of components; a flat label uses an empty second component.
Values are `Option ℚ` (NaN = `none`). -/
structure DataFrame where
  multi : Bool
  cols : List ((String × String) × List (Option ℚ))
deriving DecidableEq

/-- Column labels (first components) of a frame. -/
def colNames (df : DataFrame) : List String := df.cols.map fun c => c.1.1

/-- Lookup of `df[name]` on a flat frame; the only call sites guarantee the
column exists (Python would raise `KeyError` otherwise). -/
def lookupCol (df : DataFrame) (name : String) : List (Option ℚ) :=
  match df.cols.find? (fun c => c.1.1 = name) with
  | some c => c.2
  | none => []

/-- Model of `df[name] = xs` (pandas `__setitem__`): replace the column if the
label exists, append it otherwise. -/
def setCol (df : DataFrame) (name : String) (xs : List (Option ℚ)) : DataFrame :=
  if name ∈ colNames df then
    { df with cols := df.cols.map fun c => if c.1.1 = name then (c.1, xs) else c }
  else
    { df with cols := df.cols ++ [((name, ""), xs)] }

/-- Value of `flatten_columns`' argument after the call (lines 118–122): pick
`c[0] if c[0] else c[1]` when the columns are a MultiIndex, then
`str(col).strip()` every label. -/
def flatten_columnsFn (df : DataFrame) : DataFrame :=
  let flat := if df.multi
    then df.cols.map fun c => ((if c.1.1 ≠ "" then c.1.1 else c.1.2, ""), c.2)
    else df.cols
  { multi := false
    cols := flat.map fun c => ((c.1.1.trim, c.1.2), c.2) }

/-- In-place effect of `flatten_columns(df)`: the assignments to `df.columns`
update the argument object itself, and the function returns that same object
— so the caller's frame and the returned frame are both `flatten_columnsFn df`.
The pair is (post-state of the argument, returned value). -/
def flatten_columnsEffect (df : DataFrame) : DataFrame × DataFrame :=
  (flatten_columnsFn df, flatten_columnsFn df)

/-- Value of `get_indicators`' argument after the call (lines 104–110): the
four indicator columns are assigned into the frame.  The close column at the
call site is NaN-free (the frame comes from `dropna`), so extracting its
values with `filterMap id` is faithful there. -/
def get_indicatorsFn (df : DataFrame) : DataFrame :=
  let closes := (lookupCol df "Close").filterMap id
  let df1 := setCol df "SMA_50" (rollingMean 50 closes)
  let df2 := setCol df1 "SMA_200" (rollingMean 200 closes)
  let df3 := setCol df2 "Daily Return" (pctChange closes)
  let df4 := setCol df3 "RSI" (computeRSI 14 closes)
  df4

/-- In-place effect of `get_indicators(df)` on a cache miss (when the wrapped
function actually executes): `data["SMA_50"] = …` and the three following
assignments mutate the argument object, which is also the returned object.
The pair is (post-state of the argument, returned value). -/
def get_indicatorsEffect (df : DataFrame) : DataFrame × DataFrame :=
  (get_indicatorsFn df, get_indicatorsFn df)

/- ------------------------------------------------------------------ -/
/- Script flow: symbol fetch, date validation, range adjustment        -/
/- ------------------------------------------------------------------ -/

/-- Inputs of one script run: whether the max-period history came back empty
(line 54), the earliest available date, the two user-selected dates (all dates
as day counts), the rows the ranged download would return, and whether the
Analyze button state is set. -/
structure ScriptInput where
  maxHistoryEmpty : Bool
  earliestDate : ℤ
  userStart : ℤ
  endDate : ℤ
  raw : List RawRow
  analyzed : Bool
deriving DecidableEq

/-- Externally visible effects of a script run, in order: the
`yf.Ticker(symbol).history(period="max")` download (line 53), the warning of
line 90, the ranged `yf.download` inside `get_data` (line 100), and the
indicator computation of `get_indicators` (lines 104–110). -/
inductive Effect where
  | fetchMaxHistory
  | warnAdjusted
  | fetchRange (start finish : ℤ)
  | runIndicators
deriving DecidableEq

/-- Terminal state of a script run: stopped on the empty-history error
(line 56), stopped on the date-order error (line 79), idle (button not
pressed), or completed the analysis section. -/
inductive ScriptOutcome where
  | invalidSymbolStop
  | invalidRangeStop
  | idle
  | completed (run : AnalysisRun)

/-- Boolean recogniser for the date-order stop (avoids needing decidable
equality of full outcomes). -/
def ScriptOutcome.isInvalidRangeStop : ScriptOutcome → Bool
  | ScriptOutcome.invalidRangeStop => true
  | _ => false

/-- Model of line 86: `start_date = max(user_start_date, earliest_date,
allowed_start_date)` with `allowed_start_date = end_date - 365 * 10` days. -/
def effectiveStart (userStart earliestDate endDate : ℤ) : ℤ :=
  max (max userStart earliestDate) (endDate - 365 * 10)

/-- Model of one top-to-bottom run of the script: max-history fetch, empty
check, date-order check, start-date adjustment with its warning, and — when
the Analyze state is set — the ranged download and the analysis section. -/
def runScript (inp : ScriptInput) : List Effect × ScriptOutcome :=
  if inp.maxHistoryEmpty then ([Effect.fetchMaxHistory], ScriptOutcome.invalidSymbolStop)
  else if inp.endDate ≤ inp.userStart then ([Effect.fetchMaxHistory], ScriptOutcome.invalidRangeStop)
  else
    let start := effectiveStart inp.userStart inp.earliestDate inp.endDate
    let warns := if inp.userStart < start then [Effect.warnAdjusted] else []
    if inp.analyzed then
      ([Effect.fetchMaxHistory] ++ warns
         ++ [Effect.fetchRange start inp.endDate, Effect.runIndicators],
       ScriptOutcome.completed (analysisBlock inp.raw))
    else ([Effect.fetchMaxHistory] ++ warns, ScriptOutcome.idle)

/- ------------------------------------------------------------------ -/
/- Helper lemmas                                                       -/
/- ------------------------------------------------------------------ -/

theorem getD_map_range {α : Type} (f : ℕ → α) (d : α) {n i : ℕ} (hi : i < n) :
    ((List.range n).map f).getD i d = f i := by
  rw [List.getD_eq_getElem?_getD, List.getElem?_map, List.getElem?_range hi]; rfl

/- ------------------------------------------------------------------ -/
/- C2: MA signal                                                       -/
/- ------------------------------------------------------------------ -/

/-- C2 (counterexample): with both last moving averages defined and exactly
equal, the code displays nothing (`silent`), which is a different observable
outcome from the one produced when a value is undefined (the "Not enough
data" message) — so the tie case does not return Undetermined as claimed. -/
theorem c2_counterexample :
    evalMASignal (some 100) (some 100) = MAOutcome.silent ∧
    evalMASignal none (some 100) = MAOutcome.notEnoughInfo ∧
    evalMASignal (some 100) (some 100) ≠ evalMASignal none (some 100) := by
  decide

/-- C2 (amended): the MA signal evaluation yields Buy exactly when both last
values are defined and short > long, Sell exactly when both are defined and
short < long, the not-enough-data outcome (the claim's Undetermined) exactly
when either last value is undefined, and — unlike the claim — a distinct
no-output outcome when the two defined values are exactly equal. -/
theorem c2_ma_signal (s l : Option ℚ) :
    (evalMASignal s l = MAOutcome.buy ↔ ∃ a b, s = some a ∧ l = some b ∧ b < a) ∧
    (evalMASignal s l = MAOutcome.sell ↔ ∃ a b, s = some a ∧ l = some b ∧ a < b) ∧
    (evalMASignal s l = MAOutcome.notEnoughInfo ↔ s = none ∨ l = none) ∧
    (evalMASignal s l = MAOutcome.silent ↔ ∃ a, s = some a ∧ l = some a) := by
  rcases s with _ | a <;> rcases l with _ | b
  · simp [evalMASignal]
  · simp [evalMASignal]
  · simp [evalMASignal]
  · rcases lt_trichotomy a b with h | rfl | h
    · simp [evalMASignal, h, h.ne, h.ne', not_lt.mpr h.le]
    · simp [evalMASignal, lt_irrefl]
    · simp [evalMASignal, h, h.ne, h.ne', not_lt.mpr h.le]

/- ------------------------------------------------------------------ -/
/- C5: daily returns                                                   -/
/- ------------------------------------------------------------------ -/

/-- C5: the daily-return sequence has the same length as the close series,
position 0 is undefined, and every later position whose previous close is
nonzero holds exactly `close[i] / close[i-1] - 1` (rationals are exact, so
the 1e-9 float tolerance of the claim is met with equality). -/
theorem c5_daily_returns (cs : List ℚ) (i : ℕ) (h0 : 0 < i) (hi : i < cs.length)
    (hc : cs.getD (i - 1) 0 ≠ 0) :
    (pctChange cs).length = cs.length ∧
    (pctChange cs).getD 0 none = none ∧
    (pctChange cs).getD i none = some (cs.getD i 0 / cs.getD (i - 1) 0 - 1) := by
  refine ⟨by simp [pctChange], ?_, ?_⟩
  · rcases Nat.eq_zero_or_pos cs.length with h | h
    · simp [pctChange, h]
    · rw [pctChange, getD_map_range _ _ h]
  · obtain ⟨j, rfl⟩ : ∃ j, i = j + 1 := ⟨i - 1, by omega⟩
    rw [pctChange, getD_map_range _ _ hi]
    simp only [Nat.add_sub_cancel] at hc ⊢
    congr 1
    rw [sub_div, div_self hc]

/-- C5 (witness): on the series `[2, 3]`, position 1 holds `3/2 - 1`. -/
theorem c5_daily_returns_witness :
    0 < 1 ∧ 1 < ([(2 : ℚ), 3] : List ℚ).length ∧ ([(2 : ℚ), 3] : List ℚ).getD 0 0 ≠ 0 ∧
    (pctChange [(2 : ℚ), 3]).getD 1 none = some ((3 : ℚ) / 2 - 1) := by
  refine ⟨by decide, by decide, by decide, ?_⟩
  exact (c5_daily_returns [(2 : ℚ), 3] 1 (by decide) (by decide) (by decide)).2.2

/- ------------------------------------------------------------------ -/
/- C6: moving averages                                                 -/
/- ------------------------------------------------------------------ -/

/-- C6: for a positive window `w`, the rolling mean has the same length as the
input series; positions with fewer than `w` bars available are undefined (not
zero); and every position `i` with `w ≤ i + 1` holds the arithmetic mean of
the `w` most recent closes ending at `i` (trailing window: the last `w` of the
first `i + 1` entries). -/
theorem c6_moving_average (cs : List ℚ) (w : ℕ) (hw : 0 < w) (hne : cs ≠ [])
    (i : ℕ) (hi : i < cs.length) :
    (rollingMean w cs).length = cs.length ∧
    (i + 1 < w → (rollingMean w cs).getD i none = none) ∧
    (w ≤ i + 1 →
      (rollingMean w cs).getD i none =
        some ((((cs.take (i + 1)).drop (i + 1 - w)).sum) / (w : ℚ))) := by
  refine ⟨by simp [rollingMean], ?_, ?_⟩
  · intro h
    rw [rollingMean, getD_map_range _ _ hi, if_neg (by omega)]
  · intro h
    rw [rollingMean, getD_map_range _ _ hi, if_pos h, List.drop_take,
      show i + 1 - (i + 1 - w) = w by omega]

/-- C6 (witness): window 2 on `[1, 3, 5]` — position 0 undefined, position 2
holds the mean of the last two bars, `(3 + 5) / 2 = 4`. -/
theorem c6_moving_average_witness :
    (rollingMean 2 [(1 : ℚ), 3, 5]).length = 3 ∧
    (rollingMean 2 [(1 : ℚ), 3, 5]).getD 0 none = none ∧
    (rollingMean 2 [(1 : ℚ), 3, 5]).getD 2 none = some 4 := by
  have h := c6_moving_average [(1 : ℚ), 3, 5] 2 (by decide) (by decide) 2 (by decide)
  have h0 := c6_moving_average [(1 : ℚ), 3, 5] 2 (by decide) (by decide) 0 (by decide)
  refine ⟨h.1, h0.2.1 (by decide), ?_⟩
  rw [h.2.2 (by decide)]
  norm_num

/- ------------------------------------------------------------------ -/
/- C9: start ≥ end rejection                                           -/
/- ------------------------------------------------------------------ -/

/-- C9 (counterexample): with user start 5 ≥ end 3 the run is rejected, but a
data fetch has already run — the max-period history download of line 53
precedes the date validation — so the claim's "before any data fetch" is
false as stated. -/
theorem c9_counterexample :
    (3 : ℤ) ≤ 5 ∧
    ((runScript ⟨false, 0, 5, 3, [], true⟩).2).isInvalidRangeStop = true ∧
    Effect.fetchMaxHistory ∈ (runScript ⟨false, 0, 5, 3, [], true⟩).1 := by
  decide

/-- C9 (amended): for any run with a nonempty max-history and start ≥ end,
the script stops at the date-order error; the ranged download and the
indicator computation never run (the only effect is the preliminary
max-history fetch), and no analysis output is produced. -/
theorem c9_invalid_range (inp : ScriptInput) (hsym : inp.maxHistoryEmpty = false)
    (h : inp.endDate ≤ inp.userStart) :
    ((runScript inp).2).isInvalidRangeStop = true ∧
    (runScript inp).1 = [Effect.fetchMaxHistory] ∧
    (∀ a b : ℤ, Effect.fetchRange a b ∉ (runScript inp).1) ∧
    Effect.runIndicators ∉ (runScript inp).1 := by
  simp [runScript, hsym, h, ScriptOutcome.isInvalidRangeStop]

/-- C9 (witness): the boundary case start = end = 7 is rejected the same way. -/
theorem c9_invalid_range_witness :
    ((runScript ⟨false, 0, 7, 7, [], true⟩).2).isInvalidRangeStop = true ∧
    (runScript ⟨false, 0, 7, 7, [], true⟩).1 = [Effect.fetchMaxHistory] ∧
    (∀ a b : ℤ, Effect.fetchRange a b ∉ (runScript ⟨false, 0, 7, 7, [], true⟩).1) ∧
    Effect.runIndicators ∉ (runScript ⟨false, 0, 7, 7, [], true⟩).1 :=
  c9_invalid_range ⟨false, 0, 7, 7, [], true⟩ rfl (by decide)

/- ------------------------------------------------------------------ -/
/- C10: start-date adjustment                                          -/
/- ------------------------------------------------------------------ -/

/-- C10: when the start < end check passes, the effective start date is the
maximum of the user start, the earliest available date and end − 3650 days;
hence any ranged fetch spans at most 3650 days and never starts before the
user's requested start; and the adjustment warning is displayed whenever the
effective start differs from the user's start. -/
theorem c10_start_adjustment (inp : ScriptInput)
    (hsym : inp.maxHistoryEmpty = false) (hrange : inp.userStart < inp.endDate) :
    effectiveStart inp.userStart inp.earliestDate inp.endDate
        = max (max inp.userStart inp.earliestDate) (inp.endDate - 3650) ∧
    inp.endDate - effectiveStart inp.userStart inp.earliestDate inp.endDate ≤ 3650 ∧
    inp.userStart ≤ effectiveStart inp.userStart inp.earliestDate inp.endDate ∧
    (inp.userStart ≠ effectiveStart inp.userStart inp.earliestDate inp.endDate →
       Effect.warnAdjusted ∈ (runScript inp).1) ∧
    (∀ a b : ℤ, Effect.fetchRange a b ∈ (runScript inp).1 →
       b - a ≤ 3650 ∧ inp.userStart ≤ a) := by
  have h1 : effectiveStart inp.userStart inp.earliestDate inp.endDate
      = max (max inp.userStart inp.earliestDate) (inp.endDate - 3650) := by
    rw [effectiveStart]; norm_num
  have h2 : inp.endDate - effectiveStart inp.userStart inp.earliestDate inp.endDate ≤ 3650 := by
    have := le_max_right (max inp.userStart inp.earliestDate) (inp.endDate - 3650)
    rw [h1]; omega
  have h3 : inp.userStart ≤ effectiveStart inp.userStart inp.earliestDate inp.endDate := by
    rw [h1]
    exact le_trans (le_max_left _ _) (le_max_left _ _)
  refine ⟨h1, h2, h3, ?_, ?_⟩
  · intro hne
    have hlt : inp.userStart < effectiveStart inp.userStart inp.earliestDate inp.endDate :=
      lt_of_le_of_ne h3 hne
    rcases hA : inp.analyzed <;>
      simp [runScript, hsym, not_le.mpr hrange, hA, hlt]
  · intro a b hmem
    by_cases hw : inp.userStart < effectiveStart inp.userStart inp.earliestDate inp.endDate <;>
      rcases hA : inp.analyzed <;>
      simp [runScript, hsym, not_le.mpr hrange, hA, hw] at hmem
    all_goals
      obtain ⟨rfl, rfl⟩ := hmem
      exact ⟨by omega, h3⟩

/-- C10 (witness): concrete run with user start 10, earliest date 0, end 20 —
the check passes, the effective start is 10 and no warning or range facts are
violated. -/
theorem c10_start_adjustment_witness :
    effectiveStart 10 0 20 = max (max 10 0) ((20 : ℤ) - 3650) ∧
    (20 : ℤ) - effectiveStart 10 0 20 ≤ 3650 ∧
    (10 : ℤ) ≤ effectiveStart 10 0 20 ∧
    ((10 : ℤ) ≠ effectiveStart 10 0 20 →
       Effect.warnAdjusted ∈ (runScript ⟨false, 0, 10, 20, [], false⟩).1) ∧
    (∀ a b : ℤ, Effect.fetchRange a b ∈ (runScript ⟨false, 0, 10, 20, [], false⟩).1 →
       b - a ≤ 3650 ∧ (10 : ℤ) ≤ a) :=
  c10_start_adjustment ⟨false, 0, 10, 20, [], false⟩ rfl (by decide)

/- ------------------------------------------------------------------ -/
/- C3: RSI signal from the most recent defined value                   -/
/- ------------------------------------------------------------------ -/

theorem computeRSI_all_none (w : ℕ) (cs : List ℚ) (h : cs.length < w) :
    ∀ x ∈ computeRSI w cs, x = none := by
  intro x hx
  rw [computeRSI] at hx
  obtain ⟨i, hi, rfl⟩ := List.mem_map.mp hx
  rw [List.mem_range] at hi
  rw [if_neg (by omega)]

theorem computeRSI_getLast (w : ℕ) (cs : List ℚ) (hw : 0 < w) (h : w ≤ cs.length) :
    (computeRSI w cs).getLast? = some (some (rsiAt w cs (cs.length - 1))) := by
  have h0 : 0 < cs.length := by omega
  rw [computeRSI]
  conv_lhs => rw [show cs.length = (cs.length - 1) + 1 from by omega, List.range_succ]
  rw [List.map_append, List.map_singleton, List.getLast?_concat,
    if_pos (by omega : w ≤ (cs.length - 1) + 1)]

theorem filterMap_getLast_of_getLast_some (l : List (Option ℚ)) (v : ℚ)
    (h : l.getLast? = some (some v)) : (l.filterMap id).getLast? = some v := by
  have hne : l ≠ [] := by intro hnil; rw [hnil] at h; simp at h
  have hlast : l.getLast hne = some v := by
    have h2 := List.getLast?_eq_getLast_of_ne_nil hne
    rw [h] at h2
    exact (Option.some.injEq _ _).mp h2.symm
  conv_lhs => rw [← List.dropLast_append_getLast hne, hlast]
  rw [List.filterMap_append]
  simp [List.getLast?_concat]

/-- C3: the RSI signal branch classifies exactly the most recent defined RSI
value of the pipeline's RSI column: no message (Undetermined) when no value is
defined, Overbought strictly above 70, Oversold strictly below 30, Neutral
otherwise (hence also at exactly 30 and exactly 70).  Quantified over every
NaN-free close series, i.e. over every RSI sequence the pipeline can feed the
branch. -/
theorem c3_rsi_signal (cs : List ℚ) :
    rsiBlock (computeRSI 14 cs) = rsiSignalSpec (computeRSI 14 cs) := by
  by_cases h : 14 ≤ cs.length
  · have hlast := computeRSI_getLast 14 cs (by omega) h
    have hfm := filterMap_getLast_of_getLast_some _ _ hlast
    have hne : (computeRSI 14 cs).filterMap id ≠ [] := by
      intro hnil; rw [hnil] at hfm; simp at hfm
    rw [rsiBlock, rsiSignalSpec, lastDefined, hfm, if_neg hne, hlast]
  · push_neg at h
    have hall := computeRSI_all_none 14 cs h
    have hnil : (computeRSI 14 cs).filterMap id = [] := List.filterMap_eq_nil_iff.mpr hall
    rw [rsiBlock, rsiSignalSpec, lastDefined, hnil, if_pos rfl]
    simp

/- ------------------------------------------------------------------ -/
/- C7: RSI range                                                       -/
/- ------------------------------------------------------------------ -/

theorem gainsAux_nonneg (prev : ℚ) (xs : List ℚ) : ∀ z ∈ gainsAux prev xs, 0 ≤ z := by
  induction xs generalizing prev with
  | nil => simp [gainsAux]
  | cons x xs ih =>
    intro z hz
    rw [gainsAux] at hz
    rcases List.mem_cons.mp hz with rfl | hz
    · exact le_max_right _ _
    · exact ih x z hz

theorem lossesAux_nonneg (prev : ℚ) (xs : List ℚ) : ∀ z ∈ lossesAux prev xs, 0 ≤ z := by
  induction xs generalizing prev with
  | nil => simp [lossesAux]
  | cons x xs ih =>
    intro z hz
    rw [lossesAux] at hz
    rcases List.mem_cons.mp hz with rfl | hz
    · exact le_max_right _ _
    · exact ih x z hz

theorem gains_nonneg (cs : List ℚ) : ∀ z ∈ gains cs, 0 ≤ z := by
  cases cs with
  | nil => simp [gains]
  | cons c rest =>
    intro z hz
    rw [gains] at hz
    rcases List.mem_cons.mp hz with rfl | hz
    · exact le_refl 0
    · exact gainsAux_nonneg c rest z hz

theorem losses_nonneg (cs : List ℚ) : ∀ z ∈ losses cs, 0 ≤ z := by
  cases cs with
  | nil => simp [losses]
  | cons c rest =>
    intro z hz
    rw [losses] at hz
    rcases List.mem_cons.mp hz with rfl | hz
    · exact le_refl 0
    · exact lossesAux_nonneg c rest z hz

theorem ewmaAux_nonneg (a : ℚ) (ha0 : 0 ≤ a) (ha1 : a ≤ 1) :
    ∀ (xs : List ℚ), (∀ x ∈ xs, 0 ≤ x) → ∀ (y : ℚ), 0 ≤ y →
      ∀ z ∈ ewmaAux a y xs, 0 ≤ z := by
  intro xs
  induction xs with
  | nil => intro _ y _ z hz; simp [ewmaAux] at hz
  | cons x xs ih =>
    intro hxs y hy z hz
    have hx : 0 ≤ x := hxs x (by simp)
    have hy2 : 0 ≤ (1 - a) * y + a * x :=
      add_nonneg (mul_nonneg (by linarith) hy) (mul_nonneg ha0 hx)
    rw [ewmaAux] at hz
    rcases List.mem_cons.mp hz with rfl | hz
    · exact hy2
    · exact ih (fun t ht => hxs t (by simp [ht])) _ hy2 z hz

theorem ewma_nonneg (a : ℚ) (ha0 : 0 ≤ a) (ha1 : a ≤ 1)
    (xs : List ℚ) (hxs : ∀ x ∈ xs, 0 ≤ x) : ∀ z ∈ ewma a xs, 0 ≤ z := by
  cases xs with
  | nil => simp [ewma]
  | cons x xs =>
    intro z hz
    rw [ewma] at hz
    rcases List.mem_cons.mp hz with rfl | hz
    · exact hxs z (by simp)
    · exact ewmaAux_nonneg a ha0 ha1 xs (fun t ht => hxs t (by simp [ht]))
        x (hxs x (by simp)) z hz

theorem getD_nonneg (l : List ℚ) (h : ∀ z ∈ l, 0 ≤ z) (i : ℕ) : 0 ≤ l.getD i 0 := by
  rw [List.getD_eq_getElem?_getD]
  rcases hlt : l[i]? with _ | x
  · simp
  · simp only [Option.getD_some]
    exact h x (List.getElem?_mem hlt)

theorem rsiAt_bounds (w : ℕ) (hw : 1 ≤ w) (cs : List ℚ) (i : ℕ) :
    0 ≤ rsiAt w cs i ∧ rsiAt w cs i ≤ 100 := by
  have hw0 : (0 : ℚ) < (w : ℚ) := by exact_mod_cast Nat.pos_of_ne_zero (by omega)
  have ha0 : (0 : ℚ) ≤ 1 / (w : ℚ) := by positivity
  have ha1 : 1 / (w : ℚ) ≤ 1 := by
    rw [div_le_one hw0]; exact_mod_cast hw
  have hloss : 0 ≤ (avgLoss w cs).getD i 0 := by
    refine getD_nonneg _ ?_ i
    rw [avgLoss]
    exact ewma_nonneg _ ha0 ha1 _ (losses_nonneg cs)
  have hgain : 0 ≤ (avgGain w cs).getD i 0 := by
    refine getD_nonneg _ ?_ i
    rw [avgGain]
    exact ewma_nonneg _ ha0 ha1 _ (gains_nonneg cs)
  rw [rsiAt]
  split_ifs with h0
  · norm_num
  · have hlpos : 0 < (avgLoss w cs).getD i 0 := lt_of_le_of_ne hloss (Ne.symm h0)
    have hrs : 0 ≤ (avgGain w cs).getD i 0 / (avgLoss w cs).getD i 0 :=
      div_nonneg hgain hloss
    have h2 : 100 / (1 + (avgGain w cs).getD i 0 / (avgLoss w cs).getD i 0) ≤ 100 :=
      div_le_self (by norm_num) (by linarith)
    have h3 : 0 < 100 / (1 + (avgGain w cs).getD i 0 / (avgLoss w cs).getD i 0) :=
      div_pos (by norm_num) (by linarith)
    constructor <;> linarith

/-- C7 (counterexample): on a flat 14-bar series the RSI is already defined at
position 13 — a position within the first `window = 14` bars — refuting the
claim's "values within the first window bars are undefined" (ta's zeroed
position-0 diff makes the smoothing window fill one bar early); its value
there is 100. -/
theorem c7_counterexample :
    13 < 14 ∧
    (computeRSI 14 (List.replicate 14 (1 : ℚ))).getD 13 none = some 100 := by
  refine ⟨by decide, ?_⟩
  rw [computeRSI, getD_map_range _ _ (by simp : 13 < (List.replicate 14 (1 : ℚ)).length),
    if_pos (by norm_num), rsiAt, if_pos ?_]
  show (avgLoss 14 (List.replicate 14 (1 : ℚ))).getD 13 0 = 0
  norm_num [avgLoss, losses, lossesAux, ewma, ewmaAux, List.replicate, List.getD]

/-- C7 (amended): every defined RSI value lies in [0, 100]; whenever the
smoothed average loss at a defined position is exactly 0 the value is exactly
100; and positions with fewer than `window − 1` price moves — indices
`i < window − 1`, not `i < window` as claimed — are undefined. -/
theorem c7_rsi_range (w : ℕ) (hw : 1 ≤ w) (cs : List ℚ) (i : ℕ) (hi : i < cs.length) :
    (i + 1 < w → (computeRSI w cs).getD i none = none) ∧
    (∀ v : ℚ, (computeRSI w cs).getD i none = some v → 0 ≤ v ∧ v ≤ 100) ∧
    (w ≤ i + 1 → (avgLoss w cs).getD i 0 = 0 →
       (computeRSI w cs).getD i none = some 100) := by
  have hval : (computeRSI w cs).getD i none
      = if w ≤ i + 1 then some (rsiAt w cs i) else none := by
    rw [computeRSI, getD_map_range _ _ hi]
  refine ⟨?_, ?_, ?_⟩
  · intro h; rw [hval, if_neg (by omega)]
  · intro v hv
    rw [hval] at hv
    by_cases h : w ≤ i + 1
    · rw [if_pos h] at hv
      have hv2 : rsiAt w cs i = v := (Option.some.injEq _ _).mp hv
      rw [← hv2]
      exact rsiAt_bounds w hw cs i
    · rw [if_neg h] at hv; exact absurd hv (by simp)
  · intro h h0
    rw [hval, if_pos h, rsiAt, if_pos h0]

/-- C7 (witness): with window 1 on the one-bar series `[5]`, position 0 is
defined, within bounds, and equals 100 (zero smoothed loss). -/
theorem c7_rsi_range_witness :
    (computeRSI 1 [(5 : ℚ)]).getD 0 none = some 100 :=
  (c7_rsi_range 1 (by decide) [(5 : ℚ)] 0 (by decide)).2.2 (by decide)
    (by norm_num [avgLoss, losses, lossesAux, ewma, ewmaAux, List.getD])

/- ------------------------------------------------------------------ -/
/- C8: annualized volatility                                           -/
/- ------------------------------------------------------------------ -/

/-- C8: the (squared) annualized volatility is undefined — a NaN value, not
an exception and not zero — exactly when fewer than two defined daily returns
exist, and otherwise equals the sample variance of the defined returns (NaN
entries skipped) times 252, i.e. the square of their standard deviation times
√252. -/
theorem c8_volatility (rets : List (Option ℚ)) :
    (annualizedVolSq rets = none ↔ (rets.filterMap id).length < 2) ∧
    ((rets.filterMap id).length < 2 → annualizedVolSq rets ≠ some 0) ∧
    (2 ≤ (rets.filterMap id).length →
       annualizedVolSq rets =
         some ((((rets.filterMap id).map
             (fun x => (x - meanQ (rets.filterMap id)) ^ 2)).sum
           / (((rets.filterMap id).length : ℚ) - 1)) * 252)) := by
  by_cases h : (rets.filterMap id).length < 2
  · refine ⟨by simp [annualizedVolSq, sampleVar, h], ?_, ?_⟩
    · intro _; simp [annualizedVolSq, sampleVar, h]
    · intro h2; omega
  · refine ⟨by simp [annualizedVolSq, sampleVar, h], fun h2 => absurd h2 h, ?_⟩
    intro _
    simp [annualizedVolSq, sampleVar, h]

/-- C8 (witness): the returns `[NaN, 0, 1]` have two defined values; the
squared annualized volatility is `(1/2) * 252 = 126`. -/
theorem c8_volatility_witness :
    2 ≤ (([none, some 0, some 1] : List (Option ℚ)).filterMap id).length ∧
    annualizedVolSq [none, some 0, some 1] = some 126 := by
  refine ⟨by decide, ?_⟩
  have e : (([none, some 0, some 1] : List (Option ℚ)).filterMap id) = [(0 : ℚ), 1] := by
    decide
  rw [(c8_volatility [none, some 0, some 1]).2.2 (by decide), e]
  norm_num [meanQ]

/- ------------------------------------------------------------------ -/
/- C1: empty cleaned table                                             -/
/- ------------------------------------------------------------------ -/

/-- C1 (counterexample): a one-row table whose row misses its open value
cleans to zero rows, yet the analysis does not fail with EmptyInput — and it
is not free of partial output either: the price and MA charts were already
rendered when it aborted. -/
theorem c1_counterexample :
    dropna [(⟨none, some 1, some 1, some 1, some 1⟩ : RawRow)] = [] ∧
    (analysisBlock [(⟨none, some 1, some 1, some 1, some 1⟩ : RawRow)]).failure
        ≠ some ErrKind.emptyInput ∧
    (analysisBlock [(⟨none, some 1, some 1, some 1, some 1⟩ : RawRow)]).rendered ≠ [] := by
  decide

/-- C1 (amended): whenever cleaning leaves zero rows, the analysis aborts with
an uncaught IndexError at the SMA-signal step — not with an EmptyInput error —
after rendering the price and moving-average charts; no signals and no
volatility are produced. -/
theorem c1_empty_input (raw : List RawRow) (h : dropna raw = []) :
    (analysisBlock raw).failure = some ErrKind.indexError ∧
    (analysisBlock raw).result = none ∧
    (analysisBlock raw).rendered = [RenderItem.closePriceChart, RenderItem.maChart] := by
  simp [analysisBlock, h, rollingMean]

/-- C1 (witness): a one-row table missing its high value. -/
theorem c1_empty_input_witness :
    dropna [(⟨some 1, none, some 1, some 1, some 1⟩ : RawRow)] = [] ∧
    ((analysisBlock [(⟨some 1, none, some 1, some 1, some 1⟩ : RawRow)]).failure
        = some ErrKind.indexError ∧
     (analysisBlock [(⟨some 1, none, some 1, some 1, some 1⟩ : RawRow)]).result = none ∧
     (analysisBlock [(⟨some 1, none, some 1, some 1, some 1⟩ : RawRow)]).rendered
        = [RenderItem.closePriceChart, RenderItem.maChart]) :=
  ⟨by decide, c1_empty_input _ (by decide)⟩

/- ------------------------------------------------------------------ -/
/- C4: in-place mutation of the input frame                            -/
/- ------------------------------------------------------------------ -/

theorem setCol_fresh (df : DataFrame) (name : String) (xs : List (Option ℚ))
    (h : name ∉ colNames df) :
    (setCol df name xs).cols.length = df.cols.length + 1 ∧
    colNames (setCol df name xs) = colNames df ++ [name] := by
  rw [setCol, if_neg h]
  exact ⟨by simp, by simp [colNames]⟩

theorem setCol_chain_length (df : DataFrame) (a b c d : String)
    (xa xb xc xd : List (Option ℚ))
    (ha : a ∉ colNames df) (hb : b ∉ colNames df) (hc : c ∉ colNames df)
    (hd : d ∉ colNames df)
    (hba : b ≠ a) (hca : c ≠ a) (hcb : c ≠ b)
    (hda : d ≠ a) (hdb : d ≠ b) (hdc : d ≠ c) :
    (setCol (setCol (setCol (setCol df a xa) b xb) c xc) d xd).cols.length
      = df.cols.length + 4 := by
  obtain ⟨l1, n1⟩ := setCol_fresh df a xa ha
  have hb1 : b ∉ colNames (setCol df a xa) := by rw [n1]; simp [hb, hba]
  obtain ⟨l2, n2⟩ := setCol_fresh _ b xb hb1
  have hc2 : c ∉ colNames (setCol (setCol df a xa) b xb) := by
    rw [n2, n1]; simp [hc, hca, hcb]
  obtain ⟨l3, n3⟩ := setCol_fresh _ c xc hc2
  have hd3 : d ∉ colNames (setCol (setCol (setCol df a xa) b xb) c xc) := by
    rw [n3, n2, n1]; simp [hd, hda, hdb, hdc]
  obtain ⟨l4, _⟩ := setCol_fresh _ d xd hd3
  omega

/-- C4 (counterexample): after calling the indicator computation on a concrete
one-column frame, the caller's frame object is no longer equal to what was
passed in (indicator columns were assigned into it); likewise column
flattening changes its argument in place. -/
theorem c4_counterexample :
    (get_indicatorsEffect ⟨false, [(("Close", ""), [some 1, some 2, some 3])]⟩).1
      ≠ (⟨false, [(("Close", ""), [some 1, some 2, some 3])]⟩ : DataFrame) ∧
    (flatten_columnsEffect ⟨true, [(("Close", "AAPL"), [some 1])]⟩).1
      ≠ (⟨true, [(("Close", "AAPL"), [some 1])]⟩ : DataFrame) := by
  constructor <;> intro h <;>
    simp [get_indicatorsEffect, get_indicatorsFn, flatten_columnsEffect,
      flatten_columnsFn, setCol, colNames, lookupCol] at h

/-- C4 (amended): `get_indicators` and `flatten_columns` do mutate their input
frame in place — the argument's post-state is exactly the returned frame, and
for `get_indicators` (on a frame not already carrying indicator columns) the
argument has gained the four indicator columns and is no longer equal to the
frame handed in. -/
theorem c4_mutation (df : DataFrame)
    (h50 : "SMA_50" ∉ colNames df) (h200 : "SMA_200" ∉ colNames df)
    (hdr : "Daily Return" ∉ colNames df) (hrsi : "RSI" ∉ colNames df) :
    (get_indicatorsEffect df).1 = (get_indicatorsEffect df).2 ∧
    (flatten_columnsEffect df).1 = (flatten_columnsEffect df).2 ∧
    ((get_indicatorsEffect df).1).cols.length = df.cols.length + 4 ∧
    (get_indicatorsEffect df).1 ≠ df := by
  have hlen : (get_indicatorsFn df).cols.length = df.cols.length + 4 :=
    setCol_chain_length df "SMA_50" "SMA_200" "Daily Return" "RSI" _ _ _ _
      h50 h200 hdr hrsi (by decide) (by decide) (by decide)
      (by decide) (by decide) (by decide)
  refine ⟨rfl, rfl, hlen, ?_⟩
  intro heq
  have h2 := congrArg (fun x => x.cols.length) heq
  simp only at h2
  have e : (get_indicatorsEffect df).1 = get_indicatorsFn df := rfl
  rw [e, hlen] at h2
  omega

/-- C4 (witness): the mutation facts at a concrete one-column frame. -/
theorem c4_mutation_witness :
    ("SMA_50" ∉ colNames ⟨false, [(("Close", ""), [some 1])]⟩) ∧
    ((get_indicatorsEffect ⟨false, [(("Close", ""), [some 1])]⟩).1
        = (get_indicatorsEffect ⟨false, [(("Close", ""), [some 1])]⟩).2 ∧
     (flatten_columnsEffect ⟨false, [(("Close", ""), [some 1])]⟩).1
        = (flatten_columnsEffect ⟨false, [(("Close", ""), [some 1])]⟩).2 ∧
     ((get_indicatorsEffect ⟨false, [(("Close", ""), [some 1])]⟩).1).cols.length
        = (⟨false, [(("Close", ""), [some 1])]⟩ : DataFrame).cols.length + 4 ∧
     (get_indicatorsEffect ⟨false, [(("Close", ""), [some 1])]⟩).1
        ≠ (⟨false, [(("Close", ""), [some 1])]⟩ : DataFrame)) :=
  ⟨by decide, c4_mutation _ (by decide) (by decide) (by decide) (by decide)⟩
